import Mathlib

/-!
# Verification development for `src/stress-test.js`

The script is a k6 load test.  Its module scope resolves a port, builds a base
URL, loads a binary payload and exports a three-stage ramp; its default
function is the body of one virtual-user iteration.

The embedding is shallow: module-scope constants become Lean definitions over
an explicit environment, and the default function becomes a state transformer
on a `World` that carries the module bindings and the ordered trace of the
observable effects (request, check sample, console line, sleep).
-/

namespace StressTest

/-! ## Module scope: `PORT`, `BASE_URL`, `binFile` -/

/-- Raw bytes of a binary file (an `ArrayBuffer` on the JavaScript side). -/
abbrev Bytes := List Nat

/-- The `__ENV` object: a lookup from variable name to its string value,
`none` standing for `undefined` (variable not set). -/
abbrev EnvVars := String → Option String

/-- JavaScript truthiness of an `__ENV` lookup: `undefined` and the empty
string are falsy, every other string is truthy. -/
def truthy : Option String → Bool
  | none => false
  | some s => s != ""

/-- The JavaScript expression `a || b` for an `__ENV` lookup `a` and a string
`b`: the left operand when it is truthy, the right operand otherwise. -/
def jsOr (a : Option String) (b : String) : String :=
  match a with
  | some s => if truthy (some s) then s else b
  | none => b

/-- Source line 5: `const PORT = __ENV.PORT || '8500';`. -/
def PORT (__ENV : EnvVars) : String :=
  jsOr (__ENV "PORT") "8500"

/-- Source line 6: the template literal with `PORT` spliced after
`http://localhost:`. -/
def BASE_URL (__ENV : EnvVars) : String :=
  "http://localhost:" ++ PORT __ENV

/-- The file-reading builtin `open(path, mode)` of the init context, taken as
a parameter: it maps a path and a mode to the bytes of that file. -/
abbrev FileReader := String → String → Bytes

/-- Source line 9: `const binFile = open('./larry.jpeg', 'b');`. -/
def binFile (openFile : FileReader) : Bytes :=
  openFile "./larry.jpeg" "b"

/-! ## Module scope: `options` -/

/-- One entry of `options.stages`, as written in the source: the duration is
a string literal, the target a number. -/
structure Stage where
  duration : String
  target : Int
  deriving DecidableEq, Repr

/-- The exported `options` object. -/
structure Options where
  stages : List Stage
  deriving DecidableEq, Repr

/-- Source lines 11-17. -/
def options : Options :=
  { stages :=
      [ { duration := "30s", target := 5 },
        { duration := "1m", target := 5 },
        { duration := "10s", target := 0 } ] }

/-- Seconds in one unit of a duration literal. -/
def unitSeconds : List Char → Option Nat
  | ['s'] => some 1
  | ['m'] => some 60
  | ['h'] => some 3600
  | ['d'] => some 86400
  | _ => none

/-- Value of a run of decimal digits, most significant first. -/
def digitsValue (ds : List Char) : Nat :=
  ds.foldl (fun acc c => 10 * acc + (c.toNat - '0'.toNat)) 0

/-- Modelled from the spec: the reader of duration literals belongs to the
load-testing runtime and is not under `src/`.  The spec gives a stage a time
span in seconds and reads `30s`, `1m`, `10s` as 30, 60 and 10 seconds; this
reader accepts a non-empty run of decimal digits followed by one of the units
`s`, `m`, `h`, `d` and returns the span in whole seconds. -/
def parseDuration (lit : String) : Option Nat :=
  let cs := lit.toList
  let ds := cs.takeWhile Char.isDigit
  let us := cs.dropWhile Char.isDigit
  if ds.isEmpty then none
  else (unitSeconds us).map (fun u => digitsValue ds * u)

/-- Length of a stage in seconds; a literal the reader rejects counts as a
stage of length zero. -/
def stageSeconds (s : Stage) : Nat :=
  (parseDuration s.duration).getD 0

/-! ## Values and the runtime interface used by the default function -/

/-- An HTTP request as handed to the client. -/
structure Request where
  method : String
  url : String
  body : Bytes
  headers : List (String × String)
  deriving DecidableEq, Repr

/-- The response object returned by `http.post`.  A request that fails in
transit (connection error, timeout) still yields a response object: it
carries a non-empty `error` text and no success status. -/
structure Response where
  status : Int
  error : String
  deriving DecidableEq, Repr

/-- The target together with the network in front of it: what comes back for
a request. -/
abbrev Target := Request → Response

/-- The JavaScript values the check predicate can be applied to. -/
inductive JSValue where
  | undefined
  | null
  | number (n : Int)
  | string (s : String)
  | response (r : Response)
  deriving DecidableEq, Repr

/-- Property read `v.name`: a `TypeError` on `undefined` and `null`, the field
on a response object, `undefined` for a property that is absent. -/
def JSValue.getProp : JSValue → String → Except String JSValue
  | .undefined, _ => .error "TypeError"
  | .null, _ => .error "TypeError"
  | .response r, name =>
    if name = "status" then .ok (.number r.status)
    else if name = "error" then .ok (.string r.error)
    else .ok .undefined
  | _, _ => .ok .undefined

/-- Strict equality `a === b` on these values. -/
def JSValue.strictEq (a b : JSValue) : Bool :=
  decide (a = b)

/-- One observable effect of running the script. -/
inductive Effect where
  | request (req : Request)
  | checkSample (name : String) (pass : Bool)
  | log (line : String)
  | sleep (seconds : ℚ)
  deriving DecidableEq, Repr

/-- The bindings of the module scope, evaluated once in the init context. -/
structure ModuleScope where
  PORT : String
  BASE_URL : String
  binFile : Bytes
  deriving DecidableEq, Repr

/-- The state threaded through the script: the module bindings and the
effects performed so far, oldest first. -/
structure World where
  scope : ModuleScope
  trace : List Effect
  deriving DecidableEq, Repr

/-- Evaluation of the module scope (source lines 5, 6 and 9). -/
def initContext (__ENV : EnvVars) (openFile : FileReader) : World :=
  { scope :=
      { PORT := PORT __ENV
        BASE_URL := BASE_URL __ENV
        binFile := binFile openFile }
    trace := [] }

/-- The `params` argument of `http.post`. -/
structure Params where
  headers : List (String × String)
  deriving DecidableEq, Repr

/-- The call `http.post(url, body, params)`: one POST request goes out and the
response object comes back. -/
def http_post (net : Target) (url : String) (body : Bytes) (params : Params)
    (w : World) : Response × World :=
  let req : Request :=
    { method := "POST", url := url, body := body, headers := params.headers }
  (net req, { w with trace := w.trace ++ [Effect.request req] })

/-- A named set of check predicates, in the order of the object literal. -/
abbrev CheckSet := List (String × (JSValue → Except String Bool))

/-- Modelled from the spec: `check` belongs to the load-testing runtime and is
not under `src/`.  It applies every named predicate to the value and records
one pass/fail sample per name; it never throws, and a predicate that itself
errors is treated as a failed check.  The result is whether all passed. -/
def check (val : JSValue) : CheckSet → World → Bool × World
  | [], w => (true, w)
  | (name, pred) :: rest, w =>
    let pass : Bool :=
      match pred val with
      | .ok b => b
      | .error _ => false
    let (ok, w1) :=
      check val rest { w with trace := w.trace ++ [Effect.checkSample name pass] }
    (pass && ok, w1)

/-- The call `console.log(line)`. -/
def console_log (line : String) (w : World) : World :=
  { w with trace := w.trace ++ [Effect.log line] }

/-- The call `sleep(seconds)`. -/
def sleep (seconds : ℚ) (w : World) : World :=
  { w with trace := w.trace ++ [Effect.sleep seconds] }

/-! ## The default function -/

/-- Source line 28: the arrow function `(r) => r.status === 200`. -/
def statusIs200 (r : JSValue) : Except String Bool :=
  match r.getProp "status" with
  | .ok v => .ok (v.strictEq (.number 200))
  | .error e => .error e

/-- Source lines 27-29: the object literal passed to `check`. -/
def checkSet : CheckSet :=
  [("status is 200", statusIs200)]

/-- Source lines 19-38: one iteration of virtual user `__VU`, its iteration
counter being `__ITER`. -/
def defaultFunction (__VU __ITER : Nat) (net : Target) (w : World) : World :=
  let params : Params := { headers := [("Content-Type", "image/jpeg")] }
  let (res, w1) := http_post net (w.scope.BASE_URL ++ "/predict") w.scope.binFile params w
  let (_, w2) := check (.response res) checkSet w1
  let w3 :=
    if __ITER = 0 ∧ __VU = 1 then
      let type := "Binary"
      console_log ("Testing Port " ++ w2.scope.PORT ++ " using " ++ type ++ " payload") w2
    else w2
  sleep (1 / 2) w3

/-! ## Runs -/

/-- One execution of the default function inside a run. -/
structure Execution where
  vu : Nat
  iter : Nat
  net : Target

/-- A run seen as the sequence of its completed executions of the default
function, in completion order. -/
def run (execs : List Execution) (w : World) : World :=
  execs.foldl (fun acc e => defaultFunction e.vu e.iter e.net acc) w

/-- Modelled from the spec: the virtual-user loop belongs to the load-testing
runtime and is not under `src/`.  The loop performs one iteration after the
other, counting them from `iter`, for as long as it is not told to stop; here
it is given one target behaviour per iteration it runs. -/
def virtualUser (vu : Nat) : Nat → List Target → World → World
  | _, [], w => w
  | iter, net :: rest, w => virtualUser vu (iter + 1) rest (defaultFunction vu iter net w)

/-- Number of passed samples of the check `name`. -/
def checksPassed (name : String) (w : World) : Nat :=
  w.trace.count (Effect.checkSample name true)

/-- Number of failed samples of the check `name`. -/
def checksFailed (name : String) (w : World) : Nat :=
  w.trace.count (Effect.checkSample name false)

/-- The requests of a trace, in order. -/
def requestsOf : List Effect → List Request
  | [] => []
  | Effect.request r :: es => r :: requestsOf es
  | _ :: es => requestsOf es

/-- The console lines of a trace, in order. -/
def logsOf : List Effect → List String
  | [] => []
  | Effect.log l :: es => l :: logsOf es
  | _ :: es => logsOf es

/-! ## Desired concurrency -/

/-- Modelled from the spec: the stage scheduler belongs to the load-testing
runtime and is not under `src/`.  Each stage ramps linearly from the previous
stage's target (`prev`) to its own target over its duration; past the end of
the last stage the desired concurrency is 0; a stage of duration 0 is a no-op
transition.  `t` is the time in seconds since the start of the first stage of
the list. -/
def rampFrom (prev : ℚ) : List Stage → ℚ → ℚ
  | [], _ => 0
  | s :: rest, t =>
    if t < (stageSeconds s : ℚ) then
      prev + ((s.target : ℚ) - prev) * t / (stageSeconds s : ℚ)
    else
      rampFrom (s.target : ℚ) rest (t - (stageSeconds s : ℚ))

/-- Desired concurrency of this script's run at `t` seconds: the ramp over
`options.stages`, starting from 0. -/
def desiredConcurrency (t : ℚ) : ℚ :=
  rampFrom 0 options.stages t

/-! ## Auxiliary facts -/

theorem stageSeconds_rampUp : stageSeconds { duration := "30s", target := 5 } = 30 := by
  decide

theorem stageSeconds_hold : stageSeconds { duration := "1m", target := 5 } = 60 := by
  decide

theorem stageSeconds_rampDown : stageSeconds { duration := "10s", target := 0 } = 10 := by
  decide

theorem statusIs200_response (r : Response) :
    statusIs200 (.response r) = .ok (decide (r.status = 200)) := by
  simp [statusIs200, JSValue.getProp, JSValue.strictEq]

/-- The default function written out: the scope is kept and four (or three)
effects are appended to the trace. -/
theorem defaultFunction_eq (vu it : Nat) (net : Target) (w : World) :
    defaultFunction vu it net w =
      { scope := w.scope
        trace :=
          w.trace ++
            [Effect.request
                { method := "POST", url := w.scope.BASE_URL ++ "/predict",
                  body := w.scope.binFile, headers := [("Content-Type", "image/jpeg")] },
              Effect.checkSample "status is 200"
                (decide ((net
                  { method := "POST", url := w.scope.BASE_URL ++ "/predict",
                    body := w.scope.binFile,
                    headers := [("Content-Type", "image/jpeg")] }).status = 200))] ++
            (if it = 0 ∧ vu = 1 then
              [Effect.log ("Testing Port " ++ w.scope.PORT ++ " using Binary payload")]
            else []) ++
            [Effect.sleep (1 / 2)] } := by
  by_cases h : it = 0 ∧ vu = 1
  · simp [defaultFunction, http_post, check, checkSet, statusIs200_response, console_log,
      sleep, h, String.append_assoc]
  · simp [defaultFunction, http_post, check, checkSet, statusIs200_response, console_log,
      sleep, h]

theorem requestsOf_append (xs ys : List Effect) :
    requestsOf (xs ++ ys) = requestsOf xs ++ requestsOf ys := by
  induction xs with
  | nil => rfl
  | cons x xs ih => cases x <;> simp [requestsOf, ih]

theorem logsOf_append (xs ys : List Effect) :
    logsOf (xs ++ ys) = logsOf xs ++ logsOf ys := by
  induction xs with
  | nil => rfl
  | cons x xs ih => cases x <;> simp [logsOf, ih]

theorem defaultFunction_scope (vu it : Nat) (net : Target) (w : World) :
    (defaultFunction vu it net w).scope = w.scope := by
  rw [defaultFunction_eq]

theorem defaultFunction_requests (vu it : Nat) (net : Target) (w : World) :
    requestsOf (defaultFunction vu it net w).trace =
      requestsOf w.trace ++
        [{ method := "POST", url := w.scope.BASE_URL ++ "/predict",
           body := w.scope.binFile, headers := [("Content-Type", "image/jpeg")] }] := by
  rw [defaultFunction_eq]
  by_cases h : it = 0 ∧ vu = 1 <;> simp [requestsOf_append, requestsOf, h]

theorem defaultFunction_logs (vu it : Nat) (net : Target) (w : World) :
    logsOf (defaultFunction vu it net w).trace =
      logsOf w.trace ++
        (if it = 0 ∧ vu = 1 then
          ["Testing Port " ++ w.scope.PORT ++ " using Binary payload"]
        else []) := by
  rw [defaultFunction_eq]
  by_cases h : it = 0 ∧ vu = 1 <;> simp [logsOf_append, logsOf, h]

theorem defaultFunction_passed (vu it : Nat) (net : Target) (w : World) :
    checksPassed "status is 200" (defaultFunction vu it net w) =
      checksPassed "status is 200" w +
        (if (net
          { method := "POST", url := w.scope.BASE_URL ++ "/predict",
            body := w.scope.binFile,
            headers := [("Content-Type", "image/jpeg")] }).status = 200 then 1 else 0) := by
  rw [defaultFunction_eq]
  by_cases h : it = 0 ∧ vu = 1 <;>
    by_cases hs : (net
          { method := "POST", url := w.scope.BASE_URL ++ "/predict",
            body := w.scope.binFile,
            headers := [("Content-Type", "image/jpeg")] }).status = 200 <;>
    simp [checksPassed, List.count_cons, h, hs]

theorem defaultFunction_failed (vu it : Nat) (net : Target) (w : World) :
    checksFailed "status is 200" (defaultFunction vu it net w) =
      checksFailed "status is 200" w +
        (if (net
          { method := "POST", url := w.scope.BASE_URL ++ "/predict",
            body := w.scope.binFile,
            headers := [("Content-Type", "image/jpeg")] }).status = 200 then 0 else 1) := by
  rw [defaultFunction_eq]
  by_cases h : it = 0 ∧ vu = 1 <;>
    by_cases hs : (net
          { method := "POST", url := w.scope.BASE_URL ++ "/predict",
            body := w.scope.binFile,
            headers := [("Content-Type", "image/jpeg")] }).status = 200 <;>
    simp [checksFailed, List.count_cons, h, hs]

theorem run_cons (e : Execution) (execs : List Execution) (w : World) :
    run (e :: execs) w = run execs (defaultFunction e.vu e.iter e.net w) := rfl

theorem run_scope (execs : List Execution) (w : World) : (run execs w).scope = w.scope := by
  induction execs generalizing w with
  | nil => rfl
  | cons e es ih => rw [run_cons, ih, defaultFunction_scope]

/-- Counters after a run against a target that answers every request with the
same status. -/
theorem run_counters (s : Int) (execs : List Execution) (w : World)
    (h : ∀ e ∈ execs, ∀ req, (e.net req).status = s) :
    checksPassed "status is 200" (run execs w) =
        checksPassed "status is 200" w + (if s = 200 then execs.length else 0) ∧
      checksFailed "status is 200" (run execs w) =
        checksFailed "status is 200" w + (if s = 200 then 0 else execs.length) := by
  induction execs generalizing w with
  | nil => simp [run]
  | cons e es ih =>
    have he : ∀ req, (e.net req).status = s := h e (List.mem_cons_self _ _)
    have hes : ∀ x ∈ es, ∀ req, (x.net req).status = s :=
      fun x hx => h x (List.mem_cons_of_mem _ hx)
    obtain ⟨hp, hf⟩ := ih (defaultFunction e.vu e.iter e.net w) hes
    rw [run_cons, hp, hf, defaultFunction_passed, defaultFunction_failed, he]
    by_cases hs : s = 200 <;> simp [hs] <;> omega

/-- Console lines of a run: one diagnostic line per execution of iteration 0
of virtual user 1. -/
theorem run_logs (execs : List Execution) (w : World) :
    logsOf (run execs w).trace =
      logsOf w.trace ++
        List.replicate (execs.countP (fun e => decide (e.iter = 0 ∧ e.vu = 1)))
          ("Testing Port " ++ w.scope.PORT ++ " using Binary payload") := by
  induction execs generalizing w with
  | nil => simp [run]
  | cons e es ih =>
    rw [run_cons, ih, defaultFunction_logs, defaultFunction_scope]
    by_cases h : e.iter = 0 ∧ e.vu = 1
    · simp [h, List.countP_cons, List.replicate_succ, List.replicate_add]
    · simp [h, List.countP_cons]

/-- In a run that executes no pair (virtual user, iteration) twice and does
execute iteration 0 of virtual user 1, exactly one execution is that one. -/
theorem countP_first_iteration (execs : List Execution)
    (hOnce : (execs.map (fun e => (e.vu, e.iter))).Nodup)
    (hFirst : (1, 0) ∈ execs.map (fun e => (e.vu, e.iter))) :
    execs.countP (fun e => decide (e.iter = 0 ∧ e.vu = 1)) = 1 := by
  induction execs with
  | nil => simp at hFirst
  | cons e es ih =>
    rw [List.map_cons, List.nodup_cons] at hOnce
    obtain ⟨hnot, hnd⟩ := hOnce
    by_cases h : e.iter = 0 ∧ e.vu = 1
    · have hkey : (e.vu, e.iter) = (1, 0) := by rw [h.1, h.2]
      rw [hkey] at hnot
      have hzero : es.countP (fun e => decide (e.iter = 0 ∧ e.vu = 1)) = 0 := by
        rw [List.countP_eq_zero]
        intro x hx hp
        simp only [decide_eq_true_eq] at hp
        apply hnot
        rw [List.mem_map]
        exact ⟨x, hx, by rw [hp.1, hp.2]⟩
      rw [List.countP_cons_of_pos _ _ (by simpa using h), hzero]
    · rw [List.map_cons, List.mem_cons] at hFirst
      rcases hFirst with hhead | htail
      · exfalso
        apply h
        simp only [Prod.mk.injEq] at hhead
        exact ⟨hhead.2.symm, hhead.1.symm⟩
      · rw [List.countP_cons_of_neg _ _ (by simpa using h), ih hnd htail]

/-- Requests issued by a virtual user: one per iteration it is given. -/
theorem virtualUser_requests_length (vu : Nat) (nets : List Target) (it : Nat) (w : World) :
    (requestsOf (virtualUser vu it nets w).trace).length =
      (requestsOf w.trace).length + nets.length := by
  induction nets generalizing it w with
  | nil => simp [virtualUser]
  | cons n ns ih =>
    rw [virtualUser, ih, defaultFunction_requests]
    simp
    omega

/-- The ramp over `options.stages` with the three stage lengths evaluated. -/
theorem desiredConcurrency_eq (t : ℚ) :
    desiredConcurrency t =
      if t < 30 then 5 * t / 30
      else if t - 30 < 60 then 5
      else if t - 30 - 60 < 10 then 5 + (0 - 5) * (t - 30 - 60) / 10
      else 0 := by
  simp only [desiredConcurrency, options, rampFrom, stageSeconds_rampUp, stageSeconds_hold,
    stageSeconds_rampDown]
  norm_num

/-! ## The claims -/

/-- C1: the desired concurrency over `options.stages` is `5*t/30` on `[0,30)`,
the constant 5 on `[30,90)`, `5 - 5*(t-90)/10` on `[90,100)`, and 0 from 100
seconds on. -/
theorem desiredConcurrency_piecewise (t : ℚ) :
    (0 ≤ t → t < 30 → desiredConcurrency t = 5 * t / 30) ∧
      (30 ≤ t → t < 90 → desiredConcurrency t = 5) ∧
      (90 ≤ t → t < 100 → desiredConcurrency t = 5 - 5 * (t - 90) / 10) ∧
      (100 ≤ t → desiredConcurrency t = 0) := by
  rw [desiredConcurrency_eq]
  refine ⟨?_, ?_, ?_, ?_⟩
  · intro _ h
    rw [if_pos h]
  · intro h1 h2
    rw [if_neg (by linarith), if_pos (by linarith)]
  · intro h1 h2
    rw [if_neg (by linarith), if_neg (by linarith), if_pos (by linarith)]
    ring
  · intro h
    rw [if_neg (by linarith), if_neg (by linarith), if_neg (by linarith)]

theorem desiredConcurrency_piecewise_witness :
    desiredConcurrency 15 = 5 * 15 / 30 ∧ desiredConcurrency 60 = 5 ∧
      desiredConcurrency 95 = 5 - 5 * (95 - 90) / 10 ∧ desiredConcurrency 120 = 0 :=
  ⟨(desiredConcurrency_piecewise 15).1 (by norm_num) (by norm_num),
    (desiredConcurrency_piecewise 60).2.1 (by norm_num) (by norm_num),
    (desiredConcurrency_piecewise 95).2.2.1 (by norm_num) (by norm_num),
    (desiredConcurrency_piecewise 120).2.2.2 (by norm_num)⟩

/-- C2: `options.stages` is the three-element list with durations `30s`, `1m`,
`10s` and targets 5, 5, 0; the durations read as 30, 60 and 10 seconds, every
target is non-negative, and the durations sum to 100 seconds. -/
theorem options_stages_literal :
    options.stages =
        [{ duration := "30s", target := 5 }, { duration := "1m", target := 5 },
          { duration := "10s", target := 0 }] ∧
      options.stages.map (fun s => (parseDuration s.duration, s.target)) =
        [(some 30, 5), (some 60, 5), (some 10, 0)] ∧
      (∀ s ∈ options.stages, 0 ≤ s.target) ∧
      (options.stages.map stageSeconds).sum = 100 := by
  refine ⟨rfl, by decide, by decide, by decide⟩

/-- C3: the check set of the iteration has the single name `status is 200`;
on every response object its predicate returns a boolean, true exactly when
the status is 200; and one execution records exactly one sample, of that name,
with that outcome. -/
theorem status_check_single_total (r : Response) (vu it : Nat) (w : World) :
    checkSet.map Prod.fst = ["status is 200"] ∧
      (∀ p ∈ checkSet, p.2 (.response r) = .ok (decide (r.status = 200))) ∧
      (statusIs200 (.response r) = .ok true ↔ r.status = 200) ∧
      (defaultFunction vu it (fun _ => r) w).trace.filter
          (fun e => match e with
            | Effect.checkSample _ _ => true
            | _ => false) =
        w.trace.filter
            (fun e => match e with
              | Effect.checkSample _ _ => true
              | _ => false) ++
          [Effect.checkSample "status is 200" (decide (r.status = 200))] := by
  refine ⟨rfl, ?_, ?_, ?_⟩
  · intro p hp
    simp only [checkSet, List.mem_singleton] at hp
    subst hp
    exact statusIs200_response r
  · rw [statusIs200_response]
    simp
  · rw [defaultFunction_eq]
    by_cases h : it = 0 ∧ vu = 1 <;> simp [List.filter_cons, h]

/-- C4: one execution issues exactly one request: a POST to `BASE_URL` followed
by `/predict`, with the single header `Content-Type: image/jpeg` and the body
`binFile`; the module bindings, `binFile` among them, are left unchanged; and
started from the init context the body is the file read once by `open`. -/
theorem default_issues_one_post (vu it : Nat) (net : Target) (w : World)
    (__ENV : EnvVars) (openFile : FileReader) :
    requestsOf (defaultFunction vu it net w).trace =
        requestsOf w.trace ++
          [{ method := "POST", url := w.scope.BASE_URL ++ "/predict",
             body := w.scope.binFile, headers := [("Content-Type", "image/jpeg")] }] ∧
      (defaultFunction vu it net w).scope.binFile = w.scope.binFile ∧
      requestsOf (defaultFunction vu it net (initContext __ENV openFile)).trace =
        [{ method := "POST", url := BASE_URL __ENV ++ "/predict",
           body := openFile "./larry.jpeg" "b",
           headers := [("Content-Type", "image/jpeg")] }] := by
  refine ⟨defaultFunction_requests vu it net w, ?_, ?_⟩
  · rw [defaultFunction_scope]
  · rw [defaultFunction_requests]
    simp [initContext, requestsOf, binFile]

/-- C5, counterexample: with `PORT` set to the empty string the base URL is
`http://localhost:8500`, not `http://localhost:` followed by that value. -/
theorem base_url_set_port_counterexample :
    (fun k => if k = "PORT" then some "" else none : EnvVars) "PORT" = some "" ∧
      BASE_URL (fun k => if k = "PORT" then some "" else none) = "http://localhost:8500" ∧
      BASE_URL (fun k => if k = "PORT" then some "" else none) ≠ "http://localhost:" ++ "" := by
  decide

/-- C5, amended: when `PORT` is not set the base URL is
`http://localhost:8500`, and for every non-empty value `p` of `PORT` it is
`http://localhost:` followed by `p`. -/
theorem base_url_from_port (__ENV : EnvVars) :
    (__ENV "PORT" = none → BASE_URL __ENV = "http://localhost:8500") ∧
      (∀ p, __ENV "PORT" = some p → p ≠ "" → BASE_URL __ENV = "http://localhost:" ++ p) := by
  constructor
  · intro h
    simp [BASE_URL, PORT, jsOr, h]
  · intro p h hp
    simp [BASE_URL, PORT, jsOr, truthy, h, hp]

theorem base_url_from_port_witness :
    BASE_URL (fun _ => none) = "http://localhost:8500" ∧
      BASE_URL (fun _ => some "9000") = "http://localhost:" ++ "9000" :=
  ⟨(base_url_from_port (fun _ => none)).1 rfl,
    (base_url_from_port (fun _ => some "9000")).2 "9000" rfl (by decide)⟩

/-- C6: an execution emits the diagnostic line exactly when it is iteration 0
of virtual user 1, the line being `Testing Port <PORT> using Binary payload`
with the resolved port; over a run in which every pair (virtual user,
iteration) is executed at most once and virtual user 1 executes iteration 0,
the line is emitted exactly once. -/
theorem diagnostic_line_once (__ENV : EnvVars) (openFile : FileReader)
    (execs : List Execution)
    (hOnce : (execs.map (fun e => (e.vu, e.iter))).Nodup)
    (hFirst : (1, 0) ∈ execs.map (fun e => (e.vu, e.iter))) :
    (∀ (vu it : Nat) (net : Target) (w : World),
        logsOf (defaultFunction vu it net w).trace =
          logsOf w.trace ++
            (if it = 0 ∧ vu = 1 then
              ["Testing Port " ++ w.scope.PORT ++ " using Binary payload"]
            else [])) ∧
      logsOf (run execs (initContext __ENV openFile)).trace =
        ["Testing Port " ++ PORT __ENV ++ " using Binary payload"] := by
  refine ⟨defaultFunction_logs, ?_⟩
  rw [run_logs, countP_first_iteration execs hOnce hFirst]
  simp [initContext, logsOf]

theorem diagnostic_line_once_witness :
    logsOf (run
        [{ vu := 2, iter := 0, net := fun _ => { status := 200, error := "" } },
          { vu := 1, iter := 0, net := fun _ => { status := 200, error := "" } },
          { vu := 1, iter := 1, net := fun _ => { status := 500, error := "" } }]
        (initContext (fun _ => none) (fun _ _ => [255, 216]))).trace =
      ["Testing Port " ++ PORT (fun _ => none) ++ " using Binary payload"] :=
  (diagnostic_line_once (fun _ => none) (fun _ _ => [255, 216])
    [{ vu := 2, iter := 0, net := fun _ => { status := 200, error := "" } },
      { vu := 1, iter := 0, net := fun _ => { status := 200, error := "" } },
      { vu := 1, iter := 1, net := fun _ => { status := 500, error := "" } }]
    (by decide) (by decide)).2

/-- C7: when the request of an iteration fails (its result carries an error
and no 200 status), the iteration records the check `status is 200` as failed,
then reaches its sleep, and returns; the loop of the virtual user goes on with
the next iteration and issues every remaining request. -/
theorem failed_request_iteration (vu it : Nat) (net : Target) (rest : List Target)
    (w : World) (req : Request)
    (hreq : req =
      { method := "POST", url := w.scope.BASE_URL ++ "/predict",
        body := w.scope.binFile, headers := [("Content-Type", "image/jpeg")] })
    (herr : (net req).error ≠ "") (hstatus : (net req).status ≠ 200) :
    (defaultFunction vu it net w).trace =
        w.trace ++ [Effect.request req, Effect.checkSample "status is 200" false] ++
          (if it = 0 ∧ vu = 1 then
            [Effect.log ("Testing Port " ++ w.scope.PORT ++ " using Binary payload")]
          else []) ++
          [Effect.sleep (1 / 2)] ∧
      checksFailed "status is 200" (defaultFunction vu it net w) =
        checksFailed "status is 200" w + 1 ∧
      checksPassed "status is 200" (defaultFunction vu it net w) =
        checksPassed "status is 200" w ∧
      virtualUser vu it (net :: rest) w =
        virtualUser vu (it + 1) rest (defaultFunction vu it net w) ∧
      (requestsOf (virtualUser vu it (net :: rest) w).trace).length =
        (requestsOf w.trace).length + 1 + rest.length := by
  subst hreq
  refine ⟨?_, ?_, ?_, rfl, ?_⟩
  · rw [defaultFunction_eq]
    simp [hstatus]
  · rw [defaultFunction_failed, if_neg hstatus]
  · rw [defaultFunction_passed, if_neg hstatus]
    rfl
  · rw [virtualUser_requests_length]
    simp
    omega

theorem failed_request_iteration_witness :
    (defaultFunction 3 7 (fun _ => { status := 0, error := "connection refused" })
        (initContext (fun _ => none) (fun _ _ => [255, 216]))).trace =
      [] ++
          [Effect.request
              { method := "POST", url := "http://localhost:8500/predict",
                body := [255, 216], headers := [("Content-Type", "image/jpeg")] },
            Effect.checkSample "status is 200" false] ++
          (if 7 = 0 ∧ 3 = 1 then
            [Effect.log ("Testing Port " ++ "8500" ++ " using Binary payload")]
          else []) ++
        [Effect.sleep (1 / 2)] :=
  (failed_request_iteration 3 7 (fun _ => { status := 0, error := "connection refused" }) []
    (initContext (fun _ => none) (fun _ _ => [255, 216]))
    { method := "POST", url := "http://localhost:8500/predict",
      body := [255, 216], headers := [("Content-Type", "image/jpeg")] }
    (by decide) (by decide) (by decide)).1

/-- C8: over a run against a target that answers every request with the same
status `s`, after the `n` completed iterations the counters of `status is 200`
are passed = n, failed = 0 when `s` is 200, and passed = 0, failed = n when
`s` is any other status. -/
theorem constant_status_counters (s : Int) (__ENV : EnvVars) (openFile : FileReader)
    (execs : List Execution)
    (hconst : ∀ e ∈ execs, ∀ req, (e.net req).status = s) :
    (s = 200 →
        checksPassed "status is 200" (run execs (initContext __ENV openFile)) = execs.length ∧
          checksFailed "status is 200" (run execs (initContext __ENV openFile)) = 0) ∧
      (s ≠ 200 →
        checksPassed "status is 200" (run execs (initContext __ENV openFile)) = 0 ∧
          checksFailed "status is 200" (run execs (initContext __ENV openFile)) =
            execs.length) := by
  obtain ⟨hp, hf⟩ := run_counters s execs (initContext __ENV openFile) hconst
  have hp0 : checksPassed "status is 200" (initContext __ENV openFile) = 0 := rfl
  have hf0 : checksFailed "status is 200" (initContext __ENV openFile) = 0 := rfl
  rw [hp, hf, hp0, hf0]
  constructor
  · intro h
    simp [h]
  · intro h
    simp [h]

theorem constant_status_counters_witness :
    checksPassed "status is 200"
        (run
          [{ vu := 1, iter := 0, net := fun _ => { status := 500, error := "" } },
            { vu := 2, iter := 0, net := fun _ => { status := 500, error := "" } },
            { vu := 1, iter := 1, net := fun _ => { status := 500, error := "" } }]
          (initContext (fun _ => none) (fun _ _ => [255, 216]))) = 0 ∧
      checksFailed "status is 200"
        (run
          [{ vu := 1, iter := 0, net := fun _ => { status := 500, error := "" } },
            { vu := 2, iter := 0, net := fun _ => { status := 500, error := "" } },
            { vu := 1, iter := 1, net := fun _ => { status := 500, error := "" } }]
          (initContext (fun _ => none) (fun _ _ => [255, 216]))) = 3 :=
  (constant_status_counters 500 (fun _ => none) (fun _ _ => [255, 216])
    [{ vu := 1, iter := 0, net := fun _ => { status := 500, error := "" } },
      { vu := 2, iter := 0, net := fun _ => { status := 500, error := "" } },
      { vu := 1, iter := 1, net := fun _ => { status := 500, error := "" } }]
    (by simp)).2 (by decide)

/-- C9: one execution appends its effects in the fixed order request, check
sample for the response of that request, (the diagnostic line on iteration 0 of
virtual user 1,) and a single sleep of 0.5 seconds as the last effect, whatever
the response, the virtual user and the iteration number. -/
theorem iteration_effect_order (vu it : Nat) (net : Target) (w : World) :
    (defaultFunction vu it net w).trace =
      w.trace ++
          [Effect.request
              { method := "POST", url := w.scope.BASE_URL ++ "/predict",
                body := w.scope.binFile, headers := [("Content-Type", "image/jpeg")] },
            Effect.checkSample "status is 200"
              (decide ((net
                { method := "POST", url := w.scope.BASE_URL ++ "/predict",
                  body := w.scope.binFile,
                  headers := [("Content-Type", "image/jpeg")] }).status = 200))] ++
          (if it = 0 ∧ vu = 1 then
            [Effect.log ("Testing Port " ++ w.scope.PORT ++ " using Binary payload")]
          else []) ++
        [Effect.sleep (1 / 2)] := by
  rw [defaultFunction_eq]

/-- C10: the default port is applied by falsiness: with `PORT` set to the
empty string, as with `PORT` unset, the port resolves to `8500` and the base
URL is `http://localhost:8500`, not `http://localhost:`; every non-empty value
of `PORT` is taken as it is, numeric or not. -/
theorem port_default_by_falsiness (__ENV : EnvVars) :
    (__ENV "PORT" = some "" →
        PORT __ENV = "8500" ∧ BASE_URL __ENV = "http://localhost:8500" ∧
          BASE_URL __ENV ≠ "http://localhost:") ∧
      (__ENV "PORT" = none →
        PORT __ENV = "8500" ∧ BASE_URL __ENV = "http://localhost:8500") ∧
      (∀ p, p ≠ "" → __ENV "PORT" = some p →
        PORT __ENV = p ∧ BASE_URL __ENV = "http://localhost:" ++ p) := by
  refine ⟨?_, ?_, ?_⟩
  · intro h
    have hp : PORT __ENV = "8500" := by simp [PORT, jsOr, truthy, h]
    refine ⟨hp, ?_, ?_⟩
    · simp only [BASE_URL, hp]
      decide
    · simp only [BASE_URL, hp]
      decide
  · intro h
    have hp : PORT __ENV = "8500" := by simp [PORT, jsOr, h]
    refine ⟨hp, ?_⟩
    simp only [BASE_URL, hp]
    decide
  · intro p hne h
    have hp : PORT __ENV = p := by simp [PORT, jsOr, truthy, h, hne]
    exact ⟨hp, by simp only [BASE_URL, hp]⟩

theorem port_default_by_falsiness_witness :
    (PORT (fun _ => some "") = "8500" ∧
        BASE_URL (fun _ => some "") = "http://localhost:8500" ∧
        BASE_URL (fun _ => some "") ≠ "http://localhost:") ∧
      (PORT (fun _ => none) = "8500" ∧ BASE_URL (fun _ => none) = "http://localhost:8500") ∧
      (PORT (fun _ => some "eighty") = "eighty" ∧
        BASE_URL (fun _ => some "eighty") = "http://localhost:" ++ "eighty") :=
  ⟨(port_default_by_falsiness (fun _ => some "")).1 rfl,
    (port_default_by_falsiness (fun _ => none)).2.1 rfl,
    (port_default_by_falsiness (fun _ => some "eighty")).2.2 "eighty" (by decide) rfl⟩

end StressTest
